import Mathlib

/-!
Shallow embedding of the offline-resilient data-caching and
request-coordination layer of the weather PWA (src/api.js,
src/service-worker.js, src/app.js, src/forecast.js, src/locations.js,
src/create-icons.js utilities, config in src/unnamed/part_003), together
with theorems settling the spec claims about it.

Conventions: JavaScript epoch-millisecond timestamps are `Int`; JavaScript
numbers are `ℚ` (`JSNumber` adds the NaN point where the code can produce
it); parsed JSON bodies are the inductive `JSValue`; stateful methods
become explicit state-passing functions returning the new state.
-/

namespace WeatherApp

/-! ### Rate limiter (src/api.js `canMakeRequest`, config src/unnamed/part_003) -/

/-- `CONFIG.RATE_LIMIT.WINDOW_MS` (60 s window). -/
def WINDOW_MS : Int := 60000

/-- `CONFIG.RATE_LIMIT.MAX_REQUESTS` (60 requests per window). -/
def MAX_REQUESTS : Nat := 60

/-- `APIClient.canMakeRequest`: prunes `requestTimestamps` down to those
strictly newer than `now - WINDOW_MS`, rejects if the pruned count has
reached `MAX_REQUESTS`, otherwise records `now`.  Returns the admission
flag and the new value of `this.requestTimestamps`. -/
def canMakeRequest (requestTimestamps : List Int) (now : Int) : Bool × List Int :=
  let windowStart := now - WINDOW_MS
  let pruned := requestTimestamps.filter (fun t => decide (windowStart < t))
  if MAX_REQUESTS ≤ pruned.length then
    (false, pruned)
  else
    (true, pruned ++ [now])

/-- Timestamps of the admitted calls when a fresh `APIClient` (empty
`requestTimestamps`) processes the given call timestamps in order. -/
def admittedFrom (st : List Int) : List Int → List Int
  | [] => []
  | c :: cs =>
    match canMakeRequest st c with
    | (true, st') => c :: admittedFrom st' cs
    | (false, st') => admittedFrom st' cs

/-- Membership of a timestamp in the trailing window ending at `T`. -/
def inWindow (T t : Int) : Bool := decide (T - WINDOW_MS < t) && decide (t ≤ T)

theorem filter_length_mono {α : Type} (l : List α) (p q : α → Bool)
    (h : ∀ x ∈ l, p x = true → q x = true) :
    (l.filter p).length ≤ (l.filter q).length := by
  induction l with
  | nil => simp
  | cons a as ih =>
    have ih' := ih (fun x hx => h x (List.mem_cons_of_mem a hx))
    by_cases hp : p a = true
    · have hq := h a (List.mem_cons_self a as) hp
      simp [List.filter_cons, hp, hq]
      omega
    · have hp' : p a = false := by simpa using hp
      by_cases hq : q a = true
      · simp [List.filter_cons, hp', hq]
        omega
      · have hq' : q a = false := by simpa using hq
        simpa [List.filter_cons, hp', hq'] using ih'

theorem filter_window_collapse (hist : List Int) (b b' : Int) (hb : b ≤ b') :
    (hist.filter (fun t => decide (b < t))).filter (fun t => decide (b' < t)) =
      hist.filter (fun t => decide (b' < t)) := by
  induction hist with
  | nil => simp
  | cons a as ih =>
    by_cases h1 : b < a
    · by_cases h2 : b' < a
      · simp [List.filter_cons, h1, h2, ih]
      · simp [List.filter_cons, h1, h2, ih]
    · have h2 : ¬ b' < a := by omega
      simp [List.filter_cons, h1, h2, ih]

/-- Main invariant lemma for the sliding-window bound: processing sorted
calls from a state equal to the admitted history filtered at bound `b`
keeps the per-window count of admissions at or below `MAX_REQUESTS`. -/
theorem admittedFrom_window_bound (calls : List Int) (hsort : calls.Sorted (· ≤ ·)) :
    ∀ (hist st : List Int) (b : Int),
      st = hist.filter (fun t => decide (b < t)) →
      (∀ c ∈ calls, b ≤ c - WINDOW_MS) →
      (∀ T : Int, ((hist.filter (inWindow T)).length ≤ MAX_REQUESTS)) →
      ∀ T : Int, (((hist ++ admittedFrom st calls).filter (inWindow T)).length ≤ MAX_REQUESTS) := by
  induction calls with
  | nil =>
    intro hist st b _ _ hhist T
    simpa [admittedFrom] using hhist T
  | cons c cs ih =>
    intro hist st b hst hb hhist T
    rw [List.sorted_cons] at hsort
    obtain ⟨hcle, hsort'⟩ := hsort
    have hIH := ih hsort'
    -- the pruned state is exactly the history filtered at the new bound
    have hpruned : st.filter (fun t => decide (c - WINDOW_MS < t)) =
        hist.filter (fun t => decide (c - WINDOW_MS < t)) := by
      rw [hst]
      exact filter_window_collapse hist b (c - WINDOW_MS) (hb c (List.mem_cons_self c cs))
    have hb' : ∀ c' ∈ cs, c - WINDOW_MS ≤ c' - WINDOW_MS := by
      intro c' hc'
      have := hcle c' hc'
      omega
    by_cases hlim : MAX_REQUESTS ≤ (st.filter (fun t => decide (c - WINDOW_MS < t))).length
    · -- rejected: state is pruned, history unchanged
      have hstep : admittedFrom st (c :: cs) =
          admittedFrom (st.filter (fun t => decide (c - WINDOW_MS < t))) cs := by
        simp only [admittedFrom, canMakeRequest, hlim, if_true]
      rw [hstep]
      exact hIH hist _ (c - WINDOW_MS) hpruned hb' hhist T
    · -- admitted: `c` is appended to both state and history
      have hstep : admittedFrom st (c :: cs) =
          c :: admittedFrom (st.filter (fun t => decide (c - WINDOW_MS < t)) ++ [c]) cs := by
        simp only [admittedFrom, canMakeRequest, hlim, if_false]
      rw [hstep]
      have hassoc : hist ++ c :: admittedFrom
          (st.filter (fun t => decide (c - WINDOW_MS < t)) ++ [c]) cs =
          (hist ++ [c]) ++ admittedFrom
            (st.filter (fun t => decide (c - WINDOW_MS < t)) ++ [c]) cs := by
        simp
      rw [hassoc]
      have hwlt : c - WINDOW_MS < c := by unfold WINDOW_MS; omega
      have hstc : st.filter (fun t => decide (c - WINDOW_MS < t)) ++ [c] =
          (hist ++ [c]).filter (fun t => decide (c - WINDOW_MS < t)) := by
        rw [List.filter_append, hpruned]
        simp [List.filter_cons, hwlt]
      have hhist' : ∀ T' : Int, (((hist ++ [c]).filter (inWindow T')).length ≤ MAX_REQUESTS) := by
        intro T'
        rw [List.filter_append]
        by_cases hcw : inWindow T' c = true
        · -- `c` is in the window ending at `T'`; all windowed history entries
          -- are then newer than `c - WINDOW_MS`, so they were counted by the
          -- admission check, which saw fewer than MAX_REQUESTS of them.
         have hcw2 := hcw
         rw [inWindow, Bool.and_eq_true, decide_eq_true_eq, decide_eq_true_eq] at hcw2
         obtain ⟨hc1, hc2⟩ := hcw2
         have hmono : (hist.filter (inWindow T')).length ≤
              (hist.filter (fun t => decide (c - WINDOW_MS < t))).length := by
            apply filter_length_mono
            intro x _ hx
            unfold inWindow at hx
            simp at hx ⊢
            omega
         have hlt : (hist.filter (fun t => decide (c - WINDOW_MS < t))).length < MAX_REQUESTS := by
            rw [← hpruned]
            omega
         simp [List.filter_cons, hcw]
         omega
        · have hcw' : inWindow T' c = false := by simpa using hcw
          simp [List.filter_cons, hcw']
          exact hhist T'
      exact hIH (hist ++ [c]) (st.filter (fun t => decide (c - WINDOW_MS < t)) ++ [c])
        (c - WINDOW_MS) hstc hb' hhist' T

/-- C1: Rate-limit window invariant.  For every sequence of admit calls
(`canMakeRequest`) with non-decreasing timestamps processed by a fresh
`APIClient`, the number of admitted calls whose timestamps lie within any
trailing `WINDOW_MS` window never exceeds `MAX_REQUESTS` (60 per 60000 ms). -/
theorem rateLimiter_sliding_window_bound (calls : List Int)
    (hsort : calls.Sorted (· ≤ ·)) (T : Int) :
    ((admittedFrom [] calls).filter (inWindow T)).length ≤ MAX_REQUESTS := by
  cases calls with
  | nil => simp [admittedFrom]
  | cons c cs =>
    have h := admittedFrom_window_bound (c :: cs) hsort [] [] (c - WINDOW_MS)
      (by simp)
      (by
        intro c' hc'
        rcases List.mem_cons.mp hc' with h | h
        · omega
        · rw [List.sorted_cons] at hsort
          have := hsort.1 c' h
          omega)
      (by intro T'; simp)
      T
    simpa using h

/-- Witness for C1 at a concrete sorted call sequence. -/
theorem rateLimiter_sliding_window_bound_witness :
    List.Sorted (· ≤ ·) [(1 : Int), 2, 3] ∧
      ((admittedFrom [] [(1 : Int), 2, 3]).filter (inWindow 3)).length ≤ MAX_REQUESTS :=
  ⟨by decide, rateLimiter_sliding_window_bound [1, 2, 3] (by decide) 3⟩

/-- C8: rejection is effect-free on the rate window.  When the pruned
in-window count has reached `MAX_REQUESTS`, the call returns `false`, the
new state is exactly the old timestamps restricted to the window (no new
timestamp is recorded), and the in-window content of the state is
unchanged by the call. -/
theorem canMakeRequest_reject_effect_free (st : List Int) (now : Int)
    (h : MAX_REQUESTS ≤ (st.filter (fun t => decide (now - WINDOW_MS < t))).length) :
    (canMakeRequest st now).1 = false ∧
    (canMakeRequest st now).2 = st.filter (fun t => decide (now - WINDOW_MS < t)) ∧
    ((canMakeRequest st now).2.filter (fun t => decide (now - WINDOW_MS < t)) =
      st.filter (fun t => decide (now - WINDOW_MS < t))) := by
  refine ⟨?_, ?_, ?_⟩
  · simp only [canMakeRequest, h, if_true]
  · simp only [canMakeRequest, h, if_true]
  · simp only [canMakeRequest, h, if_true]
    exact filter_window_collapse st (now - WINDOW_MS) (now - WINDOW_MS) le_rfl

/-- Witness for C8: sixty in-window timestamps force a rejection. -/
theorem canMakeRequest_reject_effect_free_witness :
    MAX_REQUESTS ≤ ((List.replicate 60 (5 : Int)).filter
        (fun t => decide ((10 : Int) - WINDOW_MS < t))).length ∧
      (canMakeRequest (List.replicate 60 (5 : Int)) 10).1 = false :=
  ⟨by decide, (canMakeRequest_reject_effect_free (List.replicate 60 5) 10 (by decide)).1⟩

/-! ### Service-worker cache strategies (src/service-worker.js) -/

/-- HTTP responses as the service-worker observes them. -/
structure SWResponse where
  status : Nat
  statusText : String
  body : String
deriving DecidableEq

/-- `Response.ok`: status in the 2xx range. -/
def SWResponse.ok (r : SWResponse) : Bool :=
  decide (200 ≤ r.status) && decide (r.status < 300)

/-- One named cache: entries keyed by request URL. -/
abbrev CacheStore : Type := List (String × SWResponse)

/-- `cache.match(request)` on a single cache. -/
def CacheStore.matchReq (c : CacheStore) (url : String) : Option SWResponse :=
  (List.find? (fun e => e.1 == url) c).map (fun e => e.2)

/-- `cache.put(request, response)`: overwrite the entry for the URL. -/
def CacheStore.put (c : CacheStore) (url : String) (r : SWResponse) : CacheStore :=
  (url, r) :: List.filter (fun e => !(e.1 == url)) c

/-- The CacheStorage: named caches in creation order. -/
abbrev SWCaches : Type := List (String × CacheStore)

/-- `caches.match(request)`: first hit across all caches in order. -/
def SWCaches.matchAll : SWCaches → String → Option SWResponse
  | [], _ => none
  | (_, c) :: rest, url =>
    match c.matchReq url with
    | some r => some r
    | none => SWCaches.matchAll rest url

/-- `caches.open(name)` viewed as a read: the named cache's contents
(an absent cache reads as empty). -/
def SWCaches.getCache (s : SWCaches) (name : String) : CacheStore :=
  ((List.find? (fun e => e.1 == name) s).map (fun e => e.2)).getD []

/-- `caches.open(name)` followed by `cache.put(url, r)`: update the named
cache, creating it if absent. -/
def SWCaches.putIn : SWCaches → String → String → SWResponse → SWCaches
  | [], name, url, r => [(name, CacheStore.put [] url r)]
  | (n, c) :: rest, name, url, r =>
    if n == name then (n, c.put url r) :: rest
    else (n, c) :: SWCaches.putIn rest name url r

/-- Outcome of `fetch(request)`: a settled response or a rejection
(offline / network error). -/
inductive NetResult where
  | success (r : SWResponse)
  | failure
deriving DecidableEq

def CACHE_NAME : String := "weather-pwa-v2"
def STATIC_CACHE : String := "weather-pwa-static-v2"
def API_CACHE : String := "weather-pwa-api-v2"

/-- Body of the synthesized 503 response built by `networkFirstStrategy`:
`JSON.stringify({ error: 'Network error and no cached data available' })`. -/
def unavailableBody : String :=
  "\x7b\"error\":\"Network error and no cached data available\"\x7d"

/-- The synthesized failure `Response` of `networkFirstStrategy`. -/
def unavailableResponse : SWResponse :=
  { status := 503, statusText := "Service Unavailable", body := unavailableBody }

/-- `networkFirstStrategy(request)`: try the network; cache ok responses in
`API_CACHE` and return them; on fetch rejection fall back to
`caches.match`, and failing that return the synthesized 503 response.
Returns the response handed to the page and the new cache state. -/
def networkFirstStrategy (s : SWCaches) (url : String) (net : NetResult) :
    SWResponse × SWCaches :=
  match net with
  | .success r => if r.ok then (r, s.putIn API_CACHE url r) else (r, s)
  | .failure =>
    match s.matchAll url with
    | some c => (c, s)
    | none => (unavailableResponse, s)

/-- Value a `staleWhileRevalidateStrategy` promise can resolve to: a
response, or `undefined` (the background `.catch(() => {})` result). -/
inductive SWRValue where
  | resp (r : SWResponse)
  | undef
deriving DecidableEq

/-- `staleWhileRevalidateStrategy(request, cacheName)`: read the cached
entry of the named cache; unconditionally run the background fetch, whose
ok responses update the cache and whose rejection is swallowed; resolve to
the cached entry if present, else to the background fetch's value. -/
def staleWhileRevalidateStrategy (s : SWCaches) (cacheName url : String)
    (net : NetResult) : SWRValue × SWCaches :=
  let cachedResponse := (s.getCache cacheName).matchReq url
  let s' := match net with
    | .success r => if r.ok then s.putIn cacheName url r else s
    | .failure => s
  match cachedResponse with
  | some c => (.resp c, s')
  | none =>
    match net with
    | .success r => (.resp r, s')
    | .failure => (.undef, s')

theorem putIn_getCache_matchReq (s : SWCaches) (name url : String) (r : SWResponse) :
    ((s.putIn name url r).getCache name).matchReq url = some r := by
  induction s with
  | nil =>
    simp [SWCaches.putIn, SWCaches.getCache, CacheStore.put, CacheStore.matchReq, List.find?]
  | cons e rest ih =>
    obtain ⟨n, c⟩ := e
    by_cases hn : n == name
    · have hn' : n = name := by simpa using hn
      subst hn'
      simp [SWCaches.putIn, SWCaches.getCache, CacheStore.put, CacheStore.matchReq, List.find?]
    · simp only [SWCaches.putIn, hn, if_false]
      simpa [SWCaches.getCache, List.find?, hn] using ih

/-- C2: network-first strategy.  An ok network response is stored in the
durable `API_CACHE` and returned; on fetch rejection the strategy returns
the cached response when `caches.match` finds one, and otherwise returns
the synthesized structured 503 "unavailable" response (not ok, hence
distinguishable from a real payload) instead of throwing. -/
theorem networkFirstStrategy_spec (s : SWCaches) (url : String) :
    (∀ r : SWResponse, r.ok = true →
      networkFirstStrategy s url (.success r) = (r, s.putIn API_CACHE url r) ∧
      (((s.putIn API_CACHE url r).getCache API_CACHE).matchReq url = some r)) ∧
    (∀ c : SWResponse, s.matchAll url = some c →
      networkFirstStrategy s url .failure = (c, s)) ∧
    (s.matchAll url = none →
      networkFirstStrategy s url .failure = (unavailableResponse, s) ∧
      unavailableResponse.status = 503 ∧ unavailableResponse.ok = false) := by
  refine ⟨?_, ?_, ?_⟩
  · intro r hr
    exact ⟨by simp [networkFirstStrategy, hr], putIn_getCache_matchReq s API_CACHE url r⟩
  · intro c hc
    simp [networkFirstStrategy, hc]
  · intro hc
    exact ⟨by simp [networkFirstStrategy, hc], rfl, rfl⟩

/-- Witness for C2: empty cache storage, failed fetch, synthesized 503. -/
theorem networkFirstStrategy_spec_witness :
    SWCaches.matchAll [] "u" = none ∧
      networkFirstStrategy [] "u" .failure = (unavailableResponse, []) :=
  ⟨rfl, ((networkFirstStrategy_spec [] "u").2.2 rfl).1⟩

/-- C3: stale-while-revalidate strategy.  With a cached entry present the
strategy resolves to it whatever the network does, while the background
fetch updates the named cache on an ok response (a subsequent lookup sees
the update) and leaves the state untouched on a non-ok response or a
rejection; with no cached entry the caller gets the network fetch's
response. -/
theorem staleWhileRevalidateStrategy_spec (s : SWCaches) (cacheName url : String) :
    (∀ c, (s.getCache cacheName).matchReq url = some c →
      (∀ net, (staleWhileRevalidateStrategy s cacheName url net).1 = .resp c) ∧
      (∀ r, r.ok = true →
        (staleWhileRevalidateStrategy s cacheName url (.success r)).2 = s.putIn cacheName url r ∧
        (((s.putIn cacheName url r).getCache cacheName).matchReq url = some r)) ∧
      (∀ r, r.ok = false →
        (staleWhileRevalidateStrategy s cacheName url (.success r)).2 = s) ∧
      (staleWhileRevalidateStrategy s cacheName url .failure).2 = s) ∧
    ((s.getCache cacheName).matchReq url = none →
      ∀ r, (staleWhileRevalidateStrategy s cacheName url (.success r)).1 = .resp r) := by
  constructor
  · intro c hc
    refine ⟨?_, ?_, ?_, ?_⟩
    · intro net
      cases net with
      | success r => by_cases hr : r.ok <;> simp [staleWhileRevalidateStrategy, hc, hr]
      | failure => simp [staleWhileRevalidateStrategy, hc]
    · intro r hr
      exact ⟨by simp [staleWhileRevalidateStrategy, hc, hr],
        putIn_getCache_matchReq s cacheName url r⟩
    · intro r hr
      simp [staleWhileRevalidateStrategy, hc, hr]
    · simp [staleWhileRevalidateStrategy, hc]
  · intro hc r
    by_cases hr : r.ok <;> simp [staleWhileRevalidateStrategy, hc, hr]

/-- Witness for C3 at a one-entry cache. -/
theorem staleWhileRevalidateStrategy_spec_witness :
    CacheStore.matchReq (SWCaches.getCache [("s", [("u", SWResponse.mk 200 "OK" "X")])] "s") "u" =
        some (SWResponse.mk 200 "OK" "X") ∧
      (staleWhileRevalidateStrategy [("s", [("u", SWResponse.mk 200 "OK" "X")])] "s" "u" .failure).1 =
        .resp (SWResponse.mk 200 "OK" "X") :=
  ⟨rfl, ((staleWhileRevalidateStrategy_spec [("s", [("u", SWResponse.mk 200 "OK" "X")])] "s" "u").1
      (SWResponse.mk 200 "OK" "X") rfl).1 .failure⟩

/-- C10: with no cached entry and a rejected network fetch, the
stale-while-revalidate promise resolves to `undefined` — the swallowed
background rejection — so the caller receives neither a response nor an
exception. -/
theorem swr_cacheMiss_networkFailure_undefined (s : SWCaches) (cacheName url : String)
    (h : (s.getCache cacheName).matchReq url = none) :
    (staleWhileRevalidateStrategy s cacheName url .failure).1 = .undef := by
  simp [staleWhileRevalidateStrategy, h]

/-- Witness for C10 on the empty cache storage. -/
theorem swr_cacheMiss_networkFailure_undefined_witness :
    CacheStore.matchReq (SWCaches.getCache [] "s") "u" = none ∧
      (staleWhileRevalidateStrategy [] "s" "u" .failure).1 = .undef :=
  ⟨rfl, swr_cacheMiss_networkFailure_undefined [] "s" "u" rfl⟩

/-! ### JSON values and validators (src/create-icons.js utility section) -/

/-- Parsed JSON values (the possible results of `response.json()`). -/
inductive JSValue where
  | null
  | bool (b : Bool)
  | num (q : ℚ)
  | str (s : String)
  | arr (elems : List JSValue)
  | obj (fields : List (String × JSValue))

/-- JavaScript truthiness of a JSON value (`undefined` is handled by the
`Option` at use sites). -/
def JSValue.truthy : JSValue → Bool
  | .null => false
  | .bool b => b
  | .num q => !(decide (q = 0))
  | .str s => !s.isEmpty
  | .arr _ => true
  | .obj _ => true

/-- Property access `v[k]`: defined on objects, `undefined` (`none`)
elsewhere (named index properties of arrays are not modelled). -/
def JSValue.getField : JSValue → String → Option JSValue
  | .obj fields, k => (List.find? (fun f => f.1 == k) fields).map (fun f => f.2)
  | _, _ => none

/-- Truthiness of `v[k]` (missing fields are falsy `undefined`). -/
def JSValue.truthyField (v : JSValue) (k : String) : Bool :=
  ((v.getField k).map JSValue.truthy).getD false

/-- `!data || typeof data !== 'object'` is false: a non-null object
(arrays included). -/
def isObjectLike : JSValue → Bool
  | .obj _ => true
  | .arr _ => true
  | _ => false

/-- `typeof v[k1][k2] === 'number'` for the nested access used on
`data.main.temp`. -/
def numberField2 (v : JSValue) (k1 k2 : String) : Bool :=
  match (v.getField k1).bind (fun m => m.getField k2) with
  | some (.num _) => true
  | _ => false

/-- Truthiness of the nested access `v[k1][k2]`. -/
def truthyField2 (v : JSValue) (k1 k2 : String) : Bool :=
  (((v.getField k1).bind (fun m => m.getField k2)).map JSValue.truthy).getD false

/-- `Array.isArray(v[k]) && v[k].length > 0`. -/
def nonEmptyArrayField (v : JSValue) (k : String) : Bool :=
  match v.getField k with
  | some (.arr l) => decide (0 < l.length)
  | _ => false

/-- `validateWeatherResponse(data, type)` from the utility module: shape
check for `'weather'` (name, main.temp number, non-empty weather array,
sys.country) and `'forecast'` (city.name, non-empty list array). -/
def validateWeatherResponse (data : JSValue) (rtype : String) : Bool :=
  if !(isObjectLike data) then false
  else if rtype == "weather" then
    data.truthyField "name" &&
    data.truthyField "main" && numberField2 data "main" "temp" &&
    data.truthyField "weather" && nonEmptyArrayField data "weather" &&
    data.truthyField "sys" && truthyField2 data "sys" "country"
  else if rtype == "forecast" then
    data.truthyField "city" && truthyField2 data "city" "name" &&
    data.truthyField "list" && nonEmptyArrayField data "list"
  else false

/-- Caller-supplied coordinate argument: a number, `NaN`, or a value of a
non-number type (`typeof v !== 'number'`). -/
inductive JSInput where
  | number (q : ℚ)
  | nan
  | notNumber
deriving DecidableEq

/-- `validateLocation` from the utility module: both coordinates must be
non-NaN numbers with `lat ∈ [-90, 90]` and `lon ∈ [-180, 180]`. -/
def validateLocation (lat lon : JSInput) : Bool :=
  match lat, lon with
  | .number a, .number b =>
    decide (-90 ≤ a) && decide (a ≤ 90) && decide (-180 ≤ b) && decide (b ≤ 180)
  | _, _ => false

/-- Whitespace characters as `String.prototype.trim` strips them (the
cases arising in practice). -/
def isWsChar (c : Char) : Bool := c == ' ' || c == '\t' || c == '\n' || c == '\r'

/-- `s.trim()` over the character list. -/
def jsTrim (s : String) : String :=
  String.mk (((s.data.dropWhile isWsChar).reverse.dropWhile isWsChar).reverse)

/-- `validateCityName` from the utility module (`none` models a missing or
non-string argument). -/
def validateCityName : Option String → Bool
  | none => false
  | some s =>
    if s.isEmpty then false
    else decide (0 < (jsTrim s).length) && decide ((jsTrim s).length ≤ 100)

/-! ### Domain cache slots (src/app.js, src/unnamed/part_000, src/locations.js) -/

/-- One localStorage cache slot as the loaders see it: `getItem` returned
null (`empty`), a string `JSON.parse` rejects (`corrupt`), or a parsed
`{data, location, timestamp}` record (`timestamp` is `none` when the
parsed record has no numeric timestamp, making the age comparison NaN). -/
inductive Slot where
  | empty
  | corrupt
  | entry (data location : JSValue) (timestamp : Option Int)

/-- The two weather-snapshot localStorage slots. -/
structure DomainSlots where
  currentWeather : Slot
  forecast : Slot

/-! ### API client (src/api.js `fetchWeatherData`) -/

/-- The typed failures `APIClient` methods throw, by `Error` message:
`invalidInput` = invalid coordinates / city name; `rateLimited` = the
local limiter refused; `authError` = HTTP 401; `upstreamRateLimited` =
HTTP 429; `upstreamError` = other non-2xx; `parseFailure` = body JSON
parse threw; `invalidResponse` = schema validation failed;
`networkFailure` = `fetch` rejected. -/
inductive APIError where
  | invalidInput
  | rateLimited
  | authError
  | upstreamRateLimited
  | upstreamError (status : Nat)
  | parseFailure
  | invalidResponse
  | networkFailure
deriving DecidableEq

/-- Outcome of one HTTP exchange: a settled response with status and
parsed body (`none` when `response.json()` rejects), or a fetch
rejection. -/
inductive HTTPOutcome where
  | response (status : Nat) (body : Option JSValue)
  | netFailure

/-- `APIClient.fetchWeatherData(lat, lon, endpoint)`: input validation,
rate-limit admission, HTTP status classification, and response schema
validation, threading the rate-limiter state and the (never written)
domain cache slots. -/
def fetchWeatherData (st : List Int) (slots : DomainSlots) (now : Int)
    (lat lon : JSInput) (endpoint : String) (net : HTTPOutcome) :
    Except APIError JSValue × List Int × DomainSlots :=
  if !(validateLocation lat lon) then (.error .invalidInput, st, slots)
  else
    match canMakeRequest st now with
    | (false, st') => (.error .rateLimited, st', slots)
    | (true, st') =>
      match net with
      | .netFailure => (.error .networkFailure, st', slots)
      | .response status body =>
        if !(decide (200 ≤ status) && decide (status < 300)) then
          if status == 401 then (.error .authError, st', slots)
          else if status == 429 then (.error .upstreamRateLimited, st', slots)
          else (.error (.upstreamError status), st', slots)
        else
          match body with
          | none => (.error .parseFailure, st', slots)
          | some data =>
            let rtype := if endpoint == "forecast" then "forecast" else "weather"
            if !(validateWeatherResponse data rtype) then
              (.error .invalidResponse, st', slots)
            else (.ok data, st', slots)

/-- C4: input gate of `fetchWeatherData`.  Coordinates that are not both
non-NaN in-range numbers fail validation; a failed validation yields
`invalidInput` with the rate-limiter state untouched and a result
independent of the network; an admitted validation that the rate limiter
refuses yields `rateLimited`, again independent of the network. -/
theorem fetchWeatherData_input_gate (st : List Int) (slots : DomainSlots) (now : Int)
    (lat lon : JSInput) (endpoint : String) :
    ((lat = .nan ∨ lat = .notNumber ∨ lon = .nan ∨ lon = .notNumber ∨
        (∃ a, lat = .number a ∧ (a < -90 ∨ 90 < a)) ∨
        (∃ b, lon = .number b ∧ (b < -180 ∨ 180 < b))) →
      validateLocation lat lon = false) ∧
    (validateLocation lat lon = false →
      ∀ net, fetchWeatherData st slots now lat lon endpoint net =
        (.error .invalidInput, st, slots)) ∧
    (validateLocation lat lon = true → (canMakeRequest st now).1 = false →
      ∀ net, fetchWeatherData st slots now lat lon endpoint net =
        (.error .rateLimited, (canMakeRequest st now).2, slots)) := by
  refine ⟨?_, ?_, ?_⟩
  · intro h
    cases lat with
    | nan => cases lon <;> rfl
    | notNumber => cases lon <;> rfl
    | number a =>
      cases lon with
      | nan => rfl
      | notNumber => rfl
      | number b =>
        rcases h with h | h | h | h | ⟨a', ha', hr⟩ | ⟨b', hb', hr⟩
        · simp at h
        · simp at h
        · simp at h
        · simp at h
        · obtain rfl : a = a' := by injection ha'
          rcases hr with hr | hr
          · have hna : ¬ (-90 ≤ a) := by linarith
            simp [validateLocation, hna]
          · have hna : ¬ (a ≤ 90) := by linarith
            simp [validateLocation, hna]
        · obtain rfl : b = b' := by injection hb'
          rcases hr with hr | hr
          · have hnb : ¬ (-180 ≤ b) := by linarith
            simp [validateLocation, hnb]
          · have hnb : ¬ (b ≤ 180) := by linarith
            simp [validateLocation, hnb]
  · intro hval net
    simp [fetchWeatherData, hval]
  · intro hval hrl net
    have h2 : canMakeRequest st now = (false, (canMakeRequest st now).2) := by
      rw [← hrl]
    simp only [fetchWeatherData, hval, Bool.not_true, Bool.false_eq_true, if_false]
    rw [h2]

/-- Witness for C4 at NaN latitude and at an exhausted rate window. -/
theorem fetchWeatherData_input_gate_witness :
    fetchWeatherData [] ⟨.empty, .empty⟩ 0 .nan (.number 0) "weather" .netFailure =
      (.error .invalidInput, [], ⟨.empty, .empty⟩) :=
  (fetchWeatherData_input_gate [] ⟨.empty, .empty⟩ 0 .nan (.number 0) "weather").2.1
    (by simp [validateLocation]) .netFailure

/-- C5 (amended): on a 2xx response whose parsed body fails the
kind-specific schema validation, `fetchWeatherData` fails with
`invalidResponse` and leaves every domain cache slot exactly as it was.
(The forecast validation itself checks only `city.name` and a non-empty
`list` array; list entries are not individually validated — see the
counterexample.) -/
theorem fetchWeatherData_invalidResponse_frame (st : List Int) (slots : DomainSlots)
    (now : Int) (lat lon : JSInput) (endpoint : String) (status : Nat) (data : JSValue)
    (hok : 200 ≤ status ∧ status < 300)
    (hval : validateLocation lat lon = true)
    (hadm : (canMakeRequest st now).1 = true)
    (hbad : validateWeatherResponse data
      (if endpoint == "forecast" then "forecast" else "weather") = false) :
    fetchWeatherData st slots now lat lon endpoint (.response status (some data)) =
      (.error .invalidResponse, (canMakeRequest st now).2, slots) := by
  have h2 : canMakeRequest st now = (true, (canMakeRequest st now).2) := by
    rw [← hadm]
  simp only [fetchWeatherData, hval, Bool.not_true, Bool.false_eq_true, if_false]
  rw [h2]
  have hbad' : validateWeatherResponse data
      (if endpoint = "forecast" then "forecast" else "weather") = false := by
    simpa using hbad
  simp [hok.1, hok.2, hbad']

/-- Witness for C5's amended theorem: a 2xx response whose body is `null`
fails validation and is classified `invalidResponse` with the slots kept. -/
theorem fetchWeatherData_invalidResponse_frame_witness :
    (200 ≤ 200 ∧ 200 < 300) ∧
      validateLocation (.number 0) (.number 0) = true ∧
      (canMakeRequest [] 0).1 = true ∧
      validateWeatherResponse .null
        (if "weather" == "forecast" then "forecast" else "weather") = false ∧
      fetchWeatherData [] ⟨.empty, .empty⟩ 0 (.number 0) (.number 0) "weather"
          (.response 200 (some .null)) =
        (.error .invalidResponse, (canMakeRequest [] 0).2, ⟨.empty, .empty⟩) :=
  ⟨⟨by decide, by decide⟩, by decide, by decide, by decide,
    fetchWeatherData_invalidResponse_frame [] ⟨.empty, .empty⟩ 0 (.number 0) (.number 0)
      "weather" 200 .null ⟨by decide, by decide⟩ (by decide) (by decide) (by decide)⟩

/-- A forecast body whose `list` entries have none of `dt`, `weather[0]`
or `main`. -/
def shallowForecastBody : JSValue :=
  .obj [("city", .obj [("name", .str "X")]), ("list", .arr [.obj []])]

/-- C5 counterexample: the claim that a forecast body with a non-empty
list whose entries lack `dt`, `weather[0]` and `main` must be rejected is
false — `validateWeatherResponse` accepts such a body, and
`fetchWeatherData` returns it as a success rather than failing with
`invalidResponse`. -/
theorem forecast_entry_validation_cex :
    validateWeatherResponse shallowForecastBody "forecast" = true ∧
      fetchWeatherData [] ⟨.empty, .empty⟩ 0 (.number 0) (.number 0) "forecast"
          (.response 200 (some shallowForecastBody)) =
        (.ok shallowForecastBody, [0], ⟨.empty, .empty⟩) := by
  constructor
  · rfl
  · rfl

/-! ### Geocoding (src/api.js `fetchLocationFromCityName`) -/

/-- A JavaScript number or NaN (the possible results of `parseFloat`). -/
inductive JSNumber where
  | num (q : ℚ)
  | nan
deriving DecidableEq

/-- Digit run at the front of a character list. -/
def takeDigits (cs : List Char) : List Char × List Char :=
  (cs.takeWhile Char.isDigit, cs.dropWhile Char.isDigit)

/-- Numeric value of a digit run. -/
def digitsToNat (ds : List Char) : Nat :=
  ds.foldl (fun acc c => acc * 10 + (c.toNat - 48)) 0

/-- Unsigned decimal literal at the front of a character list (`none` when
no digit is present), as `parseFloat` reads it. -/
def parseDecimal (cs : List Char) : Option ℚ :=
  let ip := (takeDigits cs).1
  match (takeDigits cs).2 with
  | '.' :: rest2 =>
    let fp := (takeDigits rest2).1
    if ip.isEmpty && fp.isEmpty then none
    else some ((digitsToNat ip : ℚ) + (digitsToNat fp : ℚ) / ((10 : ℚ) ^ fp.length))
  | _ => if ip.isEmpty then none else some (digitsToNat ip : ℚ)

/-- `parseFloat` on a string: leading whitespace, optional sign, longest
decimal prefix; NaN when no digits can be read (exponent suffixes are
ignored, which the realistic inputs never carry). -/
def jsParseFloat (s : String) : JSNumber :=
  let cs := s.data.dropWhile (fun c => c == ' ' || c == '\t' || c == '\n' || c == '\r')
  match cs with
  | '-' :: rest =>
    match parseDecimal rest with
    | some q => .num (-q)
    | none => .nan
  | '+' :: rest =>
    match parseDecimal rest with
    | some q => .num q
    | none => .nan
  | _ =>
    match parseDecimal cs with
    | some q => .num q
    | none => .nan

/-- `parseFloat` applied to a JSON field value (string coercion of
numbers is the identity; other values coerce to non-numeric strings on
the inputs of interest and give NaN). -/
def jsParseFloatValue : JSValue → JSNumber
  | .num q => .num q
  | .str s => jsParseFloat s
  | _ => .nan

/-- Template-literal coercion of a JSON field value, as used for
``` `${data[0].name}, ${data[0].country}` ``` (non-string shapes do not
occur after the truthiness check on realistic payloads). -/
def jsDisplayString : JSValue → String
  | .str s => s
  | .bool b => if b then "true" else "false"
  | .null => "null"
  | _ => ""

/-- The location record `fetchLocationFromCityName` resolves with. -/
structure GeoLocation where
  lat : JSNumber
  lon : JSNumber
  name : String
  timestamp : Int
deriving DecidableEq

/-- The typed failures of `fetchLocationFromCityName`, by `Error`
message: `invalidInput` = 'Invalid city name'; `rateLimited` = local
limiter; `authError` = 401; `fetchFailed` = 'Failed to fetch location'
(other non-2xx); `parseFailure` = body parse threw; `notFound` =
'Location not found'; `invalidLocationData` = 'Invalid location data
received'; `networkFailure` = `fetch` rejected. -/
inductive GeoError where
  | invalidInput
  | rateLimited
  | authError
  | fetchFailed
  | parseFailure
  | notFound
  | invalidLocationData
  | networkFailure
deriving DecidableEq

/-- `APIClient.fetchLocationFromCityName(cityName)`: city-name
validation, rate-limit admission, status classification, then the result
shape checks: a falsy / non-array / empty body is 'Location not found';
a first element with any falsy `lat`/`lon`/`name`/`country` is 'Invalid
location data received'; otherwise the call resolves with the
`parseFloat`-parsed coordinates and concatenated display name. -/
def fetchLocationFromCityName (st : List Int) (now : Int) (cityName : Option String)
    (net : HTTPOutcome) : Except GeoError GeoLocation × List Int :=
  if !(validateCityName cityName) then (.error .invalidInput, st)
  else
    match canMakeRequest st now with
    | (false, st') => (.error .rateLimited, st')
    | (true, st') =>
      match net with
      | .netFailure => (.error .networkFailure, st')
      | .response status body =>
        if !(decide (200 ≤ status) && decide (status < 300)) then
          if status == 401 then (.error .authError, st')
          else (.error .fetchFailed, st')
        else
          match body with
          | none => (.error .parseFailure, st')
          | some data =>
            match data with
            | .arr [] => (.error .notFound, st')
            | .arr (first :: _) =>
              if !(first.truthyField "lat") || !(first.truthyField "lon") ||
                  !(first.truthyField "name") || !(first.truthyField "country") then
                (.error .invalidLocationData, st')
              else
                (.ok { lat := jsParseFloatValue ((first.getField "lat").getD .null),
                       lon := jsParseFloatValue ((first.getField "lon").getD .null),
                       name := jsDisplayString ((first.getField "name").getD .null) ++ ", " ++
                               jsDisplayString ((first.getField "country").getD .null),
                       timestamp := now }, st')
            | _ => (.error .notFound, st')

/-- A 2xx geocoding body whose first element has a truthy but non-numeric
`lat`. -/
def truthyNonNumericGeoBody : JSValue :=
  .arr [.obj [("lat", .str "abc"), ("lon", .str "5"),
              ("name", .str "X"), ("country", .str "Y")]]

/-- C6 counterexample: the claim that success requires numeric lat/lon —
and that missing/non-numeric fields make the call fail with NotFound — is
false: the code only checks truthiness, so a first element with the
non-numeric string `"abc"` as `lat` succeeds, resolving with `lat = NaN`. -/
theorem geocode_truthy_nonnumeric_cex :
    fetchLocationFromCityName [] 0 (some "Paris")
        (.response 200 (some truthyNonNumericGeoBody)) =
      (.ok { lat := .nan, lon := .num 5, name := "X, Y", timestamp := 0 }, [0]) := by
  rfl

/-- C6 (amended): an empty-after-trim or over-100-character name fails
with `invalidInput`; on a 2xx response a falsy, non-array or empty body
fails with `notFound`, a first element with any falsy
`lat`/`lon`/`name`/`country` (zero coordinates and empty strings
included) fails with `invalidLocationData`, and a first element with all
four fields truthy succeeds with `parseFloat`-parsed coordinates —
truthiness, not numericity, is what is checked. -/
theorem fetchLocationFromCityName_spec (st : List Int) (now : Int) :
    (∀ s : String, (jsTrim s).length = 0 ∨ 100 < (jsTrim s).length →
      validateCityName (some s) = false) ∧
    (∀ cityName, validateCityName cityName = false →
      ∀ net, fetchLocationFromCityName st now cityName net = (.error .invalidInput, st)) ∧
    (∀ cityName status body, validateCityName cityName = true →
      (canMakeRequest st now).1 = true → 200 ≤ status → status < 300 →
      (body = JSValue.arr [] ∨ (∀ l, body ≠ JSValue.arr l)) →
      fetchLocationFromCityName st now cityName (.response status (some body)) =
        (.error .notFound, (canMakeRequest st now).2)) ∧
    (∀ cityName status first rest, validateCityName cityName = true →
      (canMakeRequest st now).1 = true → 200 ≤ status → status < 300 →
      (first.truthyField "lat" = false ∨ first.truthyField "lon" = false ∨
        first.truthyField "name" = false ∨ first.truthyField "country" = false) →
      fetchLocationFromCityName st now cityName
          (.response status (some (JSValue.arr (first :: rest)))) =
        (.error .invalidLocationData, (canMakeRequest st now).2)) ∧
    (∀ cityName status first rest, validateCityName cityName = true →
      (canMakeRequest st now).1 = true → 200 ≤ status → status < 300 →
      first.truthyField "lat" = true → first.truthyField "lon" = true →
      first.truthyField "name" = true → first.truthyField "country" = true →
      fetchLocationFromCityName st now cityName
          (.response status (some (JSValue.arr (first :: rest)))) =
        (.ok { lat := jsParseFloatValue ((first.getField "lat").getD .null),
               lon := jsParseFloatValue ((first.getField "lon").getD .null),
               name := jsDisplayString ((first.getField "name").getD .null) ++ ", " ++
                       jsDisplayString ((first.getField "country").getD .null),
               timestamp := now }, (canMakeRequest st now).2)) := by
  have hstep : ∀ h : (canMakeRequest st now).1 = true,
      canMakeRequest st now = (true, (canMakeRequest st now).2) := by
    intro h
    rw [← h]
  refine ⟨?_, ?_, ?_, ?_, ?_⟩
  · intro s hs
    rcases hs with hs | hs
    · simp only [validateCityName]
      by_cases he : s.isEmpty
      · simp [he]
      · simp [he, hs]
    · simp only [validateCityName]
      by_cases he : s.isEmpty
      · simp [he]
      · have : ¬ (jsTrim s).length ≤ 100 := by omega
        simp [he, this]
  · intro cityName hval net
    simp [fetchLocationFromCityName, hval]
  · intro cityName status body hval hadm h1 h2 hshape
    simp only [fetchLocationFromCityName, hval, Bool.not_true, Bool.false_eq_true, if_false]
    rw [hstep hadm]
    have hok2 : (decide (200 ≤ status) && decide (status < 300)) = true := by
      simp [h1, h2]
    rcases hshape with hb | hb
    · subst hb
      simp [hok2]
    · cases body with
      | arr l => exact absurd rfl (hb l)
      | null => simp [hok2]
      | bool b => simp [hok2]
      | num q => simp [hok2]
      | str s => simp [hok2]
      | obj fields => simp [hok2]
  · intro cityName status first rest hval hadm h1 h2 hfalsy
    simp only [fetchLocationFromCityName, hval, Bool.not_true, Bool.false_eq_true, if_false]
    rw [hstep hadm]
    have hok2 : (decide (200 ≤ status) && decide (status < 300)) = true := by
      simp [h1, h2]
    have hcond : (!(first.truthyField "lat") || !(first.truthyField "lon") ||
        !(first.truthyField "name") || !(first.truthyField "country")) = true := by
      rcases hfalsy with h | h | h | h <;> simp [h]
    simp [hok2, hcond]
  · intro cityName status first rest hval hadm h1 h2 ha hb hc hd
    simp only [fetchLocationFromCityName, hval, Bool.not_true, Bool.false_eq_true, if_false]
    rw [hstep hadm]
    have hok2 : (decide (200 ≤ status) && decide (status < 300)) = true := by
      simp [h1, h2]
    simp [hok2, ha, hb, hc, hd]

/-- Witness for C6's amended theorem: the empty result array yields
'Location not found'. -/
theorem fetchLocationFromCityName_spec_witness :
    validateCityName (some "Paris") = true ∧
      (canMakeRequest [] 0).1 = true ∧
      fetchLocationFromCityName [] 0 (some "Paris") (.response 200 (some (JSValue.arr []))) =
        (.error .notFound, (canMakeRequest [] 0).2) :=
  ⟨by rfl, by rfl,
    (fetchLocationFromCityName_spec [] 0).2.2.1 (some "Paris") 200 (JSValue.arr [])
      (by rfl) (by rfl) (by decide) (by decide) (Or.inl rfl)⟩

/-! ### Saved locations (src/locations.js `addLocationToList`) -/

/-- A saved-location entry as `addLocationToList` sees it (`id = 0`
models a falsy `location.id`). -/
structure SavedLoc where
  id : Int
  lat : ℚ
  lon : ℚ
deriving DecidableEq

/-- The duplicate test of `addLocationToList`: both coordinate
differences strictly below 0.01°. -/
def isNearDup (loc location : SavedLoc) : Bool :=
  decide (|loc.lat - location.lat| < 1/100) && decide (|loc.lon - location.lon| < 1/100)

/-- How an `addLocationToList` call ends: one of its two throws, the
duplicate modal (list untouched), or a successful append. -/
inductive AddOutcome where
  | invalidLocation
  | missingId
  | duplicate
  | added
deriving DecidableEq

/-- `addLocationToList(location)`: validate the coordinates, require a
truthy `id`, report a duplicate when some saved entry is within 0.01° on
both axes, otherwise push the entry. -/
def addLocationToList (locations : List SavedLoc) (location : SavedLoc) :
    AddOutcome × List SavedLoc :=
  if !(validateLocation (.number location.lat) (.number location.lon)) then
    (.invalidLocation, locations)
  else if location.id == 0 then
    (.missingId, locations)
  else if locations.any (fun loc => isNearDup loc location) then
    (.duplicate, locations)
  else
    (.added, locations ++ [location])

/-- Saved-location lists reachable from the empty list through
`addLocationToList`. -/
inductive ReachableSaved : List SavedLoc → Prop where
  | empty : ReachableSaved []
  | step (l : List SavedLoc) (loc : SavedLoc) :
      ReachableSaved l → ReachableSaved (addLocationToList l loc).2

theorem isNearDup_comm (a b : SavedLoc) : isNearDup a b = isNearDup b a := by
  unfold isNearDup
  rw [abs_sub_comm a.lat b.lat, abs_sub_comm a.lon b.lon]

theorem isNearDup_self (a : SavedLoc) : isNearDup a a = true := by
  unfold isNearDup
  norm_num

theorem addLocationToList_added_iff (l : List SavedLoc) (loc : SavedLoc) :
    (addLocationToList l loc).1 = .added ↔
      (validateLocation (.number loc.lat) (.number loc.lon) = true ∧ loc.id ≠ 0 ∧
        l.any (fun e => isNearDup e loc) = false) := by
  unfold addLocationToList
  split_ifs with h1 h2 h3
  · simp only [Bool.not_eq_true'] at h1
    simp [h1]
  · simp only [beq_iff_eq] at h2
    simp [h2]
  · simp only [Bool.not_eq_true'] at h1
    simp [h1, h3]
  · simp only [Bool.not_eq_true'] at h1
    simp only [Bool.not_eq_false] at h1
    simp only [beq_iff_eq] at h2
    simp only [Bool.not_eq_true] at h3
    simp [h1, h2, h3]

theorem addLocationToList_snd (l : List SavedLoc) (loc : SavedLoc) :
    ((addLocationToList l loc).1 = .added ∧ (addLocationToList l loc).2 = l ++ [loc]) ∨
      ((addLocationToList l loc).1 ≠ .added ∧ (addLocationToList l loc).2 = l) := by
  unfold addLocationToList
  split_ifs
  · right; exact ⟨by simp, rfl⟩
  · right; exact ⟨by simp, rfl⟩
  · right; exact ⟨by simp, rfl⟩
  · left; exact ⟨rfl, rfl⟩

theorem reachable_pairwise (l : List SavedLoc) (h : ReachableSaved l) :
    l.Pairwise (fun a b => isNearDup a b = false) := by
  induction h with
  | empty => simp
  | step l loc hr ih =>
    rcases addLocationToList_snd l loc with ⟨hadd, hsnd⟩ | ⟨_, hsnd⟩
    · rw [hsnd]
      have hany : l.any (fun e => isNearDup e loc) = false :=
        ((addLocationToList_added_iff l loc).mp hadd).2.2
      rw [List.any_eq_false] at hany
      rw [List.pairwise_append]
      refine ⟨ih, by simp, ?_⟩
      intro a ha b hb
      have hb' : b = loc := by simpa using hb
      subst hb'
      simpa using hany a ha
    · rw [hsnd]
      exact ih

/-- C7: duplicate-guard idempotence.  Adding a valid entry within 0.01°
of a saved entry on both axes signals `duplicate` and leaves the list
unchanged; after a successful add, re-adding the same entry is a
`duplicate` no-op and exactly one entry within tolerance of it is in the
list; and every saved list reachable from the empty list has no two
entries within 0.01° of each other on both axes. -/
theorem addLocationToList_duplicate_guard :
    (∀ (l : List SavedLoc) (location : SavedLoc),
      validateLocation (.number location.lat) (.number location.lon) = true →
      location.id ≠ 0 →
      l.any (fun loc => isNearDup loc location) = true →
      addLocationToList l location = (.duplicate, l)) ∧
    (∀ (l : List SavedLoc) (location : SavedLoc),
      (addLocationToList l location).1 = .added →
      addLocationToList (addLocationToList l location).2 location =
        (.duplicate, (addLocationToList l location).2) ∧
      ((addLocationToList l location).2.filter (fun loc => isNearDup loc location)).length = 1 ∧
      (l.filter (fun loc => isNearDup loc location)).length = 0) ∧
    (∀ l : List SavedLoc, ReachableSaved l →
      l.Pairwise (fun a b => isNearDup a b = false)) := by
  refine ⟨?_, ?_, fun l h => reachable_pairwise l h⟩
  · intro l location hval hid hdup
    have hid' : (location.id == 0) = false := by
      simpa using hid
    simp [addLocationToList, hval, hid', hdup]
  · intro l location hadd
    obtain ⟨hval, hid, hany⟩ := (addLocationToList_added_iff l location).mp hadd
    have hsnd : (addLocationToList l location).2 = l ++ [location] := by
      rcases addLocationToList_snd l location with ⟨_, h⟩ | ⟨hne, _⟩
      · exact h
      · exact absurd hadd hne
    have hnil : l.filter (fun loc => isNearDup loc location) = [] := by
      rw [List.filter_eq_nil_iff]
      intro a ha
      rw [List.any_eq_false] at hany
      simp [hany a ha]
    refine ⟨?_, ?_, ?_⟩
    · rw [hsnd]
      have hid' : (location.id == 0) = false := by
        simpa using hid
      have hany2 : (l ++ [location]).any (fun e => isNearDup e location) = true := by
        rw [List.any_append]
        simp [isNearDup_self]
      simp [addLocationToList, hval, hid', hany2]
    · rw [hsnd, List.filter_append]
      simp [hnil, isNearDup_self]
    · simp [hnil]

/-- Witness for C7: re-adding a saved coordinate pair within tolerance is
reported as a duplicate and changes nothing. -/
theorem addLocationToList_duplicate_guard_witness :
    validateLocation (.number (10 : ℚ)) (.number (20 : ℚ)) = true ∧
      addLocationToList [SavedLoc.mk 1 10 20] (SavedLoc.mk 2 10 20) =
        (.duplicate, [SavedLoc.mk 1 10 20]) :=
  ⟨by norm_num [validateLocation],
    addLocationToList_duplicate_guard.1 [SavedLoc.mk 1 10 20] (SavedLoc.mk 2 10 20)
      (by norm_num [validateLocation]) (by decide)
      (by norm_num [isNearDup])⟩

/-! ### Offline fallback loaders (src/app.js `loadCachedWeather`,
src/unnamed/part_000 `loadCachedForecast`) -/

/-- `CONFIG.CACHE_MAX_AGE.WEATHER` (1 hour). -/
def CACHE_MAX_AGE_WEATHER : Int := 3600000

/-- `CONFIG.CACHE_MAX_AGE.FORECAST` (1 hour). -/
def CACHE_MAX_AGE_FORECAST : Int := 3600000

/-- `loadCachedWeather()`: read the current-weather slot; on a parsed
entry younger than the weather max-age, display it (`displayWeather` +
`updateLastUpdated`, modelled as the returned payload/location pair) and
return true; otherwise — empty slot, corrupt slot (parse failure caught),
missing timestamp (NaN age) or a stale entry — display nothing and
return false. -/
def loadCachedWeather (slot : Slot) (now : Int) : Bool × Option (JSValue × JSValue) :=
  match slot with
  | .empty => (false, none)
  | .corrupt => (false, none)
  | .entry d l ts =>
    match ts with
    | none => (false, none)
    | some t => if now - t < CACHE_MAX_AGE_WEATHER then (true, some (d, l)) else (false, none)

/-- `loadCachedForecast()`: same logic against the forecast slot and the
forecast max-age (`displayForecast` modelled as the returned pair). -/
def loadCachedForecast (slot : Slot) (now : Int) : Bool × Option (JSValue × JSValue) :=
  match slot with
  | .empty => (false, none)
  | .corrupt => (false, none)
  | .entry d l ts =>
    match ts with
    | none => (false, none)
    | some t => if now - t < CACHE_MAX_AGE_FORECAST then (true, some (d, l)) else (false, none)

/-- C9: offline fallback freshness.  Both loaders display a snapshot and
return true exactly when the slot holds a parsed entry strictly younger
than the 3 600 000 ms max-age of its kind, and return false displaying
nothing on an absent slot, a corrupt slot (parse failure swallowed, not
thrown), a missing timestamp, or an entry at least max-age old. -/
theorem loadCached_freshness_spec (now : Int) :
    (loadCachedWeather .empty now = (false, none) ∧
      loadCachedForecast .empty now = (false, none)) ∧
    (loadCachedWeather .corrupt now = (false, none) ∧
      loadCachedForecast .corrupt now = (false, none)) ∧
    (∀ d l, loadCachedWeather (.entry d l none) now = (false, none) ∧
      loadCachedForecast (.entry d l none) now = (false, none)) ∧
    (∀ d l t, CACHE_MAX_AGE_WEATHER ≤ now - t →
      loadCachedWeather (.entry d l (some t)) now = (false, none)) ∧
    (∀ d l t, CACHE_MAX_AGE_FORECAST ≤ now - t →
      loadCachedForecast (.entry d l (some t)) now = (false, none)) ∧
    (∀ d l t, now - t < CACHE_MAX_AGE_WEATHER →
      loadCachedWeather (.entry d l (some t)) now = (true, some (d, l))) ∧
    (∀ d l t, now - t < CACHE_MAX_AGE_FORECAST →
      loadCachedForecast (.entry d l (some t)) now = (true, some (d, l))) := by
  refine ⟨⟨rfl, rfl⟩, ⟨rfl, rfl⟩, fun d l => ⟨rfl, rfl⟩, ?_, ?_, ?_, ?_⟩
  · intro d l t h
    have h' : ¬ now - t < CACHE_MAX_AGE_WEATHER := by omega
    simp [loadCachedWeather, h']
  · intro d l t h
    have h' : ¬ now - t < CACHE_MAX_AGE_FORECAST := by omega
    simp [loadCachedForecast, h']
  · intro d l t h
    simp [loadCachedWeather, h]
  · intro d l t h
    simp [loadCachedForecast, h]

/-- Witness for C9: a fresh entry is displayed, a stale one is not. -/
theorem loadCached_freshness_spec_witness :
    ((100 : Int) - 50 < CACHE_MAX_AGE_WEATHER ∧
      loadCachedWeather (.entry .null .null (some 50)) 100 = (true, some (.null, .null))) ∧
    (CACHE_MAX_AGE_FORECAST ≤ (7200000 : Int) - 0 ∧
      loadCachedForecast (.entry .null .null (some 0)) 7200000 = (false, none)) :=
  ⟨⟨by decide, (loadCached_freshness_spec 100).2.2.2.2.2.1 .null .null 50 (by decide)⟩,
    ⟨by decide, (loadCached_freshness_spec 7200000).2.2.2.2.1 .null .null 0 (by decide)⟩⟩

end WeatherApp
